import Mathlib

/-!
Shallow embedding of the quantitative core of the advisor backend
(`app/services/risk_calculators.py`, `app/services/forecasting_engine.py`,
`app/services/forecasting_models/{base_model,gbm_model,arima_model}.py`,
`app/services/portfolio_optimizer.py`) in Lean 4, used to settle the
specification claims about that code.

Modelling conventions:
* Python floats are modelled by `ℚ` (exact arithmetic; the spec's non-goal is
  precision beyond double floats, and no claim here is about rounding).
* Transcendental / external numeric routines that the code calls
  (`np.exp`, `np.sqrt`, `float.__pow__` with non-integer exponent,
  `scipy.stats.norm.ppf`, the SLSQP solver `scipy.optimize.minimize`, the
  statsmodels ARIMA fit, `np.random.standard_normal`) are taken as explicit
  function parameters (oracles); every claim below is either independent of
  their values or quantifies over them.
* Python dicts keyed by strings become association lists `List (String × _)`
  with `List.lookup`; dict insertion that overwrites is modelled by
  prepend-and-filter.  All dict values produced by the embedded code are
  functions of their key alone, so first-match lookup agrees with Python's
  last-write-wins.
* Fallible code paths are modelled with `Except` / explicit error variants
  mirroring the `{error: msg}` dictionaries the Python code produces.
-/

namespace Advisor

/-! ### Numeric helpers shared by several services -/

/-- Arithmetic mean (`Series.mean()` / `np.mean`): sum divided by length.
For the empty list this is `0/0 = 0` in `ℚ` (pandas returns NaN; all call
sites below are guarded by non-emptiness checks in the source). -/
def listMean (xs : List ℚ) : ℚ := xs.sum / xs.length

/-- Sample variance with `ddof = 1` (`pandas.Series.std()**2`). -/
def sampleVar (xs : List ℚ) : ℚ :=
  (xs.map (fun x => (x - listMean xs) ^ 2)).sum / ((xs.length : ℚ) - 1)

/-- Population variance with `ddof = 0` (`np.std(xs)**2`). -/
def popVar (xs : List ℚ) : ℚ :=
  (xs.map (fun x => (x - listMean xs) ^ 2)).sum / (xs.length : ℚ)

/-- Daily percentage changes, `prices.pct_change().dropna()`:
element-wise `p[i+1]/p[i] - 1`.  (A zero price would be an inf in pandas;
in `ℚ` division by zero gives 0 — no claim touches that degenerate case.) -/
def pctChange (prices : List ℚ) : List ℚ :=
  (prices.zip prices.tail).map (fun p => p.2 / p.1 - 1)

/-- Ascending sort of rationals, as performed internally by `np.percentile`
and `np.median`. -/
def sortQ (xs : List ℚ) : List ℚ := List.insertionSort (· ≤ ·) xs

/-- Embedding of `np.percentile(xs, q)` with the default `linear`
interpolation: with `s` the ascending sort of `xs` and
`h = q/100 * (len(xs) - 1)`, the result is
`s[⌊h⌋] + (h - ⌊h⌋) * (s[⌈h⌉] - s[⌊h⌋])`.  When `h` is an integer the
interpolation weight is zero, so clamping the upper index to `n-1` agrees
with numpy at `q = 100`.  Only meaningful for `0 ≤ q ≤ 100` (numpy raises
otherwise); claims below restrict to that range. -/
def percentile (xs : List ℚ) (q : ℚ) : ℚ :=
  let s := sortQ xs
  let n := s.length
  let h : ℚ := q / 100 * ((n : ℚ) - 1)
  let i : ℕ := (⌊h⌋).toNat
  let lo := s.getD i 0
  let hi := s.getD (min (i + 1) (n - 1)) 0
  lo + (h - (i : ℚ)) * (hi - lo)

/-- Embedding of `np.median`, which equals the 50th linear-interpolation
percentile. -/
def medianQ (xs : List ℚ) : ℚ := percentile xs 50

/-- Minimum of a list (`np.min`), with the head (or 0 for `[]`) as seed. -/
def listMinD (xs : List ℚ) : ℚ := xs.foldl min (xs.headD 0)

/-- Maximum of a list (`np.max` / `Series.max()`), with the head (or 0 for
`[]`) as seed. -/
def listMaxD (xs : List ℚ) : ℚ := xs.foldl max (xs.headD 0)

/-- Python `int(q)`: truncation toward zero. -/
def intTrunc (q : ℚ) : ℤ := if 0 ≤ q then ⌊q⌋ else -⌊-q⌋

/-- Dot product of two equal-length vectors
(`np.sum(a * b)` / `np.dot` on 1-d arrays). -/
def dotVV (a b : List ℚ) : ℚ := ((a.zip b).map (fun p => p.1 * p.2)).sum

/-- Matrix-vector product `np.dot(m, v)` (row-major matrix). -/
def dotMV (m : List (List ℚ)) (v : List ℚ) : List ℚ :=
  m.map (fun row => dotVV row v)

/-- Embedding of `np.linspace a b n`: `n` evenly spaced samples from `a` to
`b` inclusive. -/
def linspace (a b : ℚ) (n : ℕ) : List ℚ :=
  (List.range n).map (fun i => a + (b - a) * i / ((n : ℚ) - 1))

/-! ### RiskCalculator (`app/services/risk_calculators.py`) -/

/-- Message used by both `calculate_var` and `calculate_cvar` for an empty
series. -/
def emptyReturnsMsg : String := "Empty returns series"

/-- Result dictionary of `RiskCalculator.calculate_var`; keys present or not
depending on `method` are modelled with `Option` fields. -/
structure VarResult where
  var_historical : Option ℚ := none
  var_historical_pct : Option ℚ := none
  var_parametric : Option ℚ := none
  var_parametric_pct : Option ℚ := none
  mean_return : Option ℚ := none
  volatility : Option ℚ := none
deriving DecidableEq, Repr

/-- Outcome of `calculate_var`: either the `{error: ...}` dict or the
populated result dict. -/
inductive VarOut
  | verr (msg : String)
  | vok (r : VarResult)
deriving DecidableEq, Repr

/-- Embedding of `RiskCalculator.calculate_var`.  `ppf` is the oracle for
`scipy.stats.norm.ppf` and `sqrtQ` for the float square root used inside
`Series.std()` (only the parametric branch uses them). -/
def calculate_var (ppf sqrtQ : ℚ → ℚ) (returns : List ℚ) (confidence : ℚ)
    (method : String) : VarOut :=
  if returns.length = 0 then .verr emptyReturnsMsg
  else
    let r0 : VarResult := {}
    let r1 :=
      if method = "historical" ∨ method = "both" then
        let varHist := percentile returns ((1 - confidence) * 100)
        { r0 with var_historical := some varHist
                  var_historical_pct := some (varHist * 100) }
      else r0
    let r2 :=
      if method = "parametric" ∨ method = "both" then
        let mu := listMean returns
        let sigma := sqrtQ (sampleVar returns)
        let varParam := mu - sigma * ppf (1 - confidence)
        { r1 with var_parametric := some varParam
                  var_parametric_pct := some (varParam * 100)
                  mean_return := some mu
                  volatility := some sigma }
      else r1
    .vok r2

/-- Result dictionary of `RiskCalculator.calculate_cvar`. -/
structure CvarResult where
  cvar : ℚ
  cvar_pct : ℚ
  var_threshold : ℚ
  confidence : ℚ
  tail_observations : ℕ
deriving DecidableEq, Repr

/-- Outcome of `calculate_cvar`. -/
inductive CvarOut
  | cerr (msg : String)
  | cok (r : CvarResult)
deriving DecidableEq, Repr

/-- Embedding of `RiskCalculator.calculate_cvar`: the threshold is the
empirical `(1-confidence)`-quantile, the CVaR is the mean of the returns at
or below it (or the threshold itself if no return qualifies). -/
def calculate_cvar (returns : List ℚ) (confidence : ℚ) : CvarOut :=
  if returns.length = 0 then .cerr emptyReturnsMsg
  else
    let thr := percentile returns ((1 - confidence) * 100)
    let tail := returns.filter (fun r => r ≤ thr)
    let cvarV := if 0 < tail.length then listMean tail else thr
    .cok ⟨cvarV, cvarV * 100, thr, confidence, tail.length⟩

/-! ### ForecastingEngine (`app/services/forecasting_engine.py`)

The engine is parameterised by its injected collaborators exactly as the
Python class is: a model registry (name → model callable), a history oracle
(`history_service.get_history`), and the storage-backed forecast cache,
modelled as an explicit association list threaded through the call. -/

/-- Per-ticker result dictionary of one model, as consumed by
`_create_ensemble`.  `return_metrics`/`terminal` model the presence of those
keys in the dict, and the inner `Option` the presence of `mean_return` /
`mean` inside them (`dict.get` with default).  `hasError` models the
check whether the key `error` is in `model_result`. -/
structure MRes where
  hasError : Bool
  return_metrics : Option (Option ℚ)
  terminal : Option (Option ℚ)
deriving DecidableEq, Repr

/-- One model's slot in the `model_results` dict of `run_forecast_suite`:
either the model-level `{error: message}` produced when the model raised,
or its per-ticker result map. -/
inductive MOut
  | merr (msg : String)
  | mok (tickerMap : List (String × MRes))
deriving DecidableEq, Repr

/-- Entry of the `constituent_models` list in a ticker's ensemble. -/
structure Constituent where
  name : String
  weight : ℚ
  ret : Option ℚ
deriving DecidableEq, Repr

/-- Per-ticker ensemble dictionary built by `_create_ensemble`.
`terminal_mean`/`mean_return` are `none` when the corresponding nested dict
stays empty. -/
structure TickerEnsemble where
  model : String := "ensemble"
  constituent_models : List Constituent := []
  terminal_mean : Option ℚ := none
  mean_return : Option ℚ := none
deriving DecidableEq, Repr

/-- Lookup of `model_results[model_name][ticker]`, `none` when either the
model slot is missing, the model slot is a model-level error dict (so the
ticker is not one of its keys), or the ticker is missing. -/
def lookupTickerResult (model_results : List (String × MOut)) (m t : String) :
    Option MRes :=
  match model_results.lookup m with
  | some (.mok tm) => tm.lookup t
  | some (.merr _) => none
  | none => none

/-- Embedding of `_get_ensemble_weights`: equal weight `1/len(models)` for
every requested model. -/
def getEnsembleWeights (models : List String) : List (String × ℚ) :=
  models.map (fun m => (m, 1 / (models.length : ℚ)))

/-- The loop iterations of `_create_ensemble` that survive all three
`continue` guards for a ticker: models (in request order) that have a
non-error result for the ticker, paired with that result. -/
def survivingResults (model_results : List (String × MOut))
    (models : List String) (t : String) : List (String × MRes) :=
  models.filterMap (fun m =>
    match lookupTickerResult model_results m t with
    | some r => if r.hasError then none else some (m, r)
    | none => none)

/-- The weight `weights.get(model_name, 1.0 / len(models))` applied to one
model. -/
def weightOf (models : List String) (m : String) : ℚ :=
  ((getEnsembleWeights models).lookup m).getD (1 / (models.length : ℚ))

/-- Per-ticker body of `_create_ensemble`.  The single Python loop appends to
`weighted_returns`, `weighted_prices` and `constituent_models` and sums
`total_weight`; each accumulator is rendered as its own traversal of the
same surviving iterations. -/
def createEnsembleTicker (model_results : List (String × MOut))
    (models : List String) (t : String) : TickerEnsemble :=
  let surv := survivingResults model_results models t
  let weighted_returns := surv.filterMap (fun p =>
    (p.2.return_metrics).map (fun mr => mr.getD 0 * weightOf models p.1))
  let weighted_prices := surv.filterMap (fun p =>
    (p.2.terminal).map (fun tm => tm.getD 0 * weightOf models p.1))
  let constituent_models := surv.map (fun p =>
    Constituent.mk p.1 (weightOf models p.1) ((p.2.return_metrics).getD none))
  let total_weight := (surv.map (fun p => weightOf models p.1)).sum
  { constituent_models := constituent_models
    mean_return :=
      if weighted_returns.isEmpty then none
      else some (if 0 < total_weight then weighted_returns.sum / total_weight else 0)
    terminal_mean :=
      if weighted_prices.isEmpty then none
      else some (if 0 < total_weight then weighted_prices.sum / total_weight else 0) }

/-- Embedding of `ForecastingEngine._create_ensemble`: one entry per
requested ticker, always present. -/
def createEnsemble (model_results : List (String × MOut))
    (tickers models : List String) : List (String × TickerEnsemble) :=
  tickers.map (fun t => (t, createEnsembleTicker model_results models t))

/-- Price history for one ticker as passed between engine and models; rows
are close prices (the models only read `len(df)` and the close column). -/
abbrev PriceData := List ℚ

/-- Scenario adjustments `{ticker: {drift_adj: d, vol_adj: v}}`. -/
abbrev Scenarios := List (String × ℚ × ℚ)

/-- Model-specific parameter dicts `{model_name: {param: value}}` (the engine
only threads these through to the models). -/
abbrev MParams := List (String × List (String × ℚ))

/-- A registered model callable, as stored in the engine's registry: it
receives the tickers, horizon in days, the shared price history, the
simulation count, the scenario adjustments and its own parameter dict, and
either returns its per-ticker map or raises (captured by
`asyncio.gather(return_exceptions=True)` as a model-level error). -/
abbrev ModelFn :=
  List String → ℕ → List (String × PriceData) → ℕ → Option Scenarios →
    Option (List (String × ℚ)) → MOut

/-- Cache document written by `_save_forecast_cache`: a `created_at`
timestamp (modelled in hours, since only differences enter the TTL check)
and the suite payload under `data`. -/
structure CacheEntry (α : Type) where
  created_at : ℚ
  data : Option α
deriving DecidableEq, Repr

/-- The `forecast_cache` collection of the storage service. -/
abbrev CacheStore (α : Type) := List (String × CacheEntry α)

/-- Embedding of `StorageService.save`: replace-or-insert under a key. -/
def saveCache {α : Type} (store : CacheStore α) (key : String)
    (e : CacheEntry α) : CacheStore α :=
  (key, e) :: store.filter (fun kv => kv.1 ≠ key)

/-- Characters-only embedding of lower-casing the horizon and removing blanks
(`String.toLower`/`String.replace` themselves do not reduce in the kernel). -/
def lowerNoSpace (s : String) : String :=
  ⟨(s.data.filter (fun c => c ≠ ' ')).map Char.toLower⟩

/-- Embedding of `ForecastingEngine._horizon_to_days`. -/
def horizonToDays (horizon : String) : ℕ :=
  let h := lowerNoSpace horizon
  if h = "1mo" then 21
  else if h = "3mo" then 63
  else if h = "6mo" then 126
  else if h = "1y" then 252
  else if h = "2y" then 504
  else 252

/-- Ascending sort of strings (Python `sorted`). -/
def sortStrings (xs : List String) : List String :=
  List.insertionSort (· ≤ ·) xs

/-- Embedding of `ForecastingEngine._generate_cache_key`: the key mentions
only the sorted tickers, the horizon string, the sorted model names and the
simulation count. -/
def generateCacheKey (tickers : List String) (horizon : String)
    (models : List String) (simulations : ℕ) : String :=
  let sorted_tickers := sortStrings tickers
  let models_str :=
    if models.isEmpty then ("default")
    else String.intercalate (",") (sortStrings models)
  let tickers_str := String.intercalate (",") sorted_tickers
  "forecast_" ++ tickers_str ++ "_" ++ horizon ++ "_" ++ models_str ++ "_" ++
    toString simulations

/-- Embedding of `_get_cached_forecast` combined with the caller's
`if cached_result:` truthiness test: a hit requires the entry to exist, its
age `now - created_at` to be strictly below the TTL, and its `data` field
to be a (necessarily truthy, being a non-empty dict) payload. -/
def getCachedForecast {α : Type} (ttlHours now : ℚ) (store : CacheStore α)
    (key : String) : Option α :=
  match store.lookup key with
  | none => none
  | some e => if now - e.created_at < ttlHours then e.data else none

/-- Successful payload of `run_forecast_suite`. -/
structure SuiteOk where
  ensemble : List (String × TickerEnsemble)
  models : List (String × MOut)
  horizon_days : ℕ
  horizon_name : String
  tickers : List String
deriving DecidableEq, Repr

/-- Value returned by `run_forecast_suite`: the suite dict, or the
`{error: ...}` dict returned when no ticker has price history. -/
inductive SuiteResult
  | serr (msg : String)
  | sok (r : SuiteOk)
deriving DecidableEq, Repr

/-- Embedding of `_fetch_price_history`: keep the tickers whose history
oracle yields a non-empty frame (fetch errors and empty frames are dropped
silently). -/
def fetchPriceHistory (histOracle : String → Option PriceData)
    (tickers : List String) : List (String × PriceData) :=
  tickers.filterMap (fun t =>
    match histOracle t with
    | some d => if d.isEmpty then none else some (t, d)
    | none => none)

/-- Embedding of `_run_models_parallel`.  Tasks are created only for
registered names (in request order) and the gathered outputs are written
back under `models[i]` — faithfully reproducing the source's indexing of
outputs by the unfiltered request list. -/
def runModelsParallel (registry : List (String × ModelFn))
    (models tickers : List String) (horizon_days : ℕ)
    (price_history : List (String × PriceData)) (simulations : ℕ)
    (scenarios : Option Scenarios) (model_params : Option MParams) :
    List (String × MOut) :=
  let ran := models.filter (fun m => (registry.lookup m).isSome)
  let outputs := ran.map (fun m =>
    match registry.lookup m with
    | some f =>
        f tickers horizon_days price_history simulations scenarios
          (model_params.bind (fun mp => mp.lookup m))
    | none => .merr ("unreachable: filtered to registered models"))
  models.zip outputs

/-- Embedding of `ForecastingEngine.run_forecast_suite`, state-passing in the
forecast cache.  `registry` is the engine's model registry, `histOracle` the
injected history service, `ttlHours` the configured cache TTL (default 24)
and `now` the current wall-clock time in hours. -/
def runForecastSuite (registry : List (String × ModelFn))
    (histOracle : String → Option PriceData) (ttlHours now : ℚ)
    (store : CacheStore SuiteResult) (tickers : List String) (horizon : String)
    (modelsOpt : Option (List String)) (simulations : ℕ)
    (scenarios : Option Scenarios) (model_params : Option MParams)
    (use_cache : Bool) : SuiteResult × CacheStore SuiteResult :=
  let models := modelsOpt.getD (registry.map (fun kv => kv.1))
  let cache_key := generateCacheKey tickers horizon models simulations
  let cached :=
    if use_cache then getCachedForecast ttlHours now store cache_key else none
  match cached with
  | some cached_result => (cached_result, store)
  | none =>
    let horizon_days := horizonToDays horizon
    let price_history := fetchPriceHistory histOracle tickers
    if price_history.isEmpty then
      (.serr ("No price history available for tickers"), store)
    else
      let model_results :=
        runModelsParallel registry models tickers horizon_days price_history
          simulations scenarios model_params
      let ensemble := createEnsemble model_results tickers models
      let result :=
        SuiteResult.sok ⟨ensemble, model_results, horizon_days, horizon, tickers⟩
      let storeOut :=
        if use_cache then saveCache store cache_key ⟨now, some result⟩ else store
      (result, storeOut)

/-- Embedding of `ForecastingEngine.extract_expected_returns`.  `powQ` is the
oracle for Python's float `**` (the exponent `365/horizon_days` is not an
integer). -/
def extractExpectedReturns (powQ : ℚ → ℚ → ℚ) (forecast_result : SuiteResult) :
    List (String × ℚ) :=
  let ensemble :=
    match forecast_result with
    | .sok r => r.ensemble
    | .serr _ => []
  let horizon_days :=
    match forecast_result with
    | .sok r => r.horizon_days
    | .serr _ => 252
  ensemble.map (fun kv =>
    let er := (kv.2.mean_return).getD 0
    (kv.1,
      if horizon_days < 252 then powQ (1 + er) (365 / (horizon_days : ℚ)) - 1
      else er))

/-! ### Forecast models (`app/services/forecasting_models/`) -/

/-- Embedding of `BaseModel.validate_history`: a frame is valid when it is
non-empty and has at least `min_days` rows. -/
def validateHistory (price_history : List ℚ) (min_days : ℕ) : Bool :=
  if price_history.isEmpty then false else decide (min_days ≤ price_history.length)

/-- Per-ticker slot in a model's result map: the `{error: reason}` dict or
a forecast payload. -/
inductive TRes (α : Type)
  | terr (msg : String)
  | tok (f : α)
deriving DecidableEq, Repr

/-- The `parameters` sub-dict of a GBM forecast. -/
structure GBMParams where
  annual_drift : ℚ
  annual_volatility : ℚ
  drift_adjustment : ℚ
  volatility_adjustment : ℚ
deriving DecidableEq, Repr

/-- The `terminal` sub-dict of a GBM forecast (cross-section statistics of
the simulated terminal prices, plus the spread confidence percentiles). -/
structure TerminalStats where
  mean : ℚ
  median : ℚ
  std : ℚ
  min : ℚ
  max : ℚ
  percentiles : List (String × ℚ)
deriving DecidableEq, Repr

/-- The `return_metrics` sub-dict of a GBM forecast. -/
structure GBMReturnMetrics where
  mean_return : ℚ
  median_return : ℚ
  prob_positive_return : ℚ
deriving DecidableEq, Repr

/-- One snapshot of `horizon_stats`. -/
structure HorizonStat where
  days : ℕ
  mean_price : ℚ
  median_price : ℚ
  mean_return : ℚ
  prob_profit : ℚ
deriving DecidableEq, Repr

/-- Per-ticker forecast payload of `GBMModel.forecast` (the constant
`metadata` dict is omitted). -/
structure GBMForecast where
  model : String := "GBM"
  current_price : ℚ
  horizon_days : ℕ
  simulations : ℕ
  parameters : GBMParams
  terminal : TerminalStats
  return_metrics : GBMReturnMetrics
  horizon_stats : List (String × HorizonStat)
deriving DecidableEq, Repr

/-- Embedding of `GBMModel._horizon_to_name`. -/
def horizonToName (days : ℕ) : String :=
  if days ≤ 21 then ("1_month")
  else if days ≤ 63 then ("3_months")
  else if days ≤ 126 then ("6_months")
  else if days ≤ 252 then ("1_year")
  else toString days ++ "_days"

/-- The percentile levels requested from `calculate_confidence_intervals`:
`int((1-cl)*100)` for each confidence level, mirrored to the other side,
deduplicated and sorted (`sorted(set(...))`). -/
def ciPercentileLevels (confidence_levels : List ℚ) : List ℤ :=
  let base := confidence_levels.map (fun cl => intTrunc ((1 - cl) * 100))
  let both := base ++ base.map (fun p => 100 - p)
  List.insertionSort (· ≤ ·) both.dedup

/-- Embedding of `BaseModel.calculate_confidence_intervals`. -/
def calculateConfidenceIntervals (values : List ℚ) (ps : List ℤ) :
    List (String × ℚ) :=
  ps.map (fun p => ("percentile_" ++ toString p, percentile values (p : ℚ)))

/-- One daily GBM factor
`exp((mu_d - 0.5 * sigma_d^2) + sigma_d * Z)`; `expQ` is the `np.exp`
oracle and `z` the standard-normal draw. -/
def gbmDailyReturn (expQ : ℚ → ℚ) (daily_mu_gbm daily_sigma_gbm z : ℚ) : ℚ :=
  expQ (daily_mu_gbm - 1 / 2 * daily_sigma_gbm ^ 2 + daily_sigma_gbm * z)

/-- Price of simulated path `s` after `t` days:
`price_paths[:, 0] = last_price`, then
`price_paths[:, t] = price_paths[:, t-1] * daily_returns[:, t-1]`. -/
def gbmPathPrice (expQ : ℚ → ℚ) (daily_mu_gbm daily_sigma_gbm : ℚ)
    (Z : ℕ → ℕ → ℚ) (last_price : ℚ) (s : ℕ) : ℕ → ℚ
  | 0 => last_price
  | t + 1 =>
    gbmPathPrice expQ daily_mu_gbm daily_sigma_gbm Z last_price s t *
      gbmDailyReturn expQ daily_mu_gbm daily_sigma_gbm (Z s t)

/-- Per-ticker body of `GBMModel.forecast` (the part after the history
validation): drift/volatility estimation, scenario adjustment, Monte Carlo
simulation with the shock oracle `Z`, and the summary statistics.  `expQ` and
`sqrtQ` are the `np.exp` / `np.sqrt` oracles. -/
def gbmForecastSingle (expQ sqrtQ : ℚ → ℚ) (Z : ℕ → ℕ → ℚ) (horizon_days : ℕ)
    (simulations : ℕ) (scenario : Option (ℚ × ℚ)) (confidence_levels : List ℚ)
    (hist : List ℚ) : GBMForecast :=
  let last_price := hist.getLast?.getD 0
  let returns := pctChange hist
  let daily_mu := listMean returns
  let daily_sigma := sqrtQ (sampleVar returns)
  let drift_adj := (scenario.map (fun a => a.1)).getD 0
  let vol_adj := (scenario.map (fun a => a.2)).getD 0
  let mu := daily_mu * 252 + drift_adj
  let sigma := daily_sigma * sqrtQ 252 * (1 + vol_adj)
  let daily_mu_gbm := mu * (1 / 252)
  let daily_sigma_gbm := sigma * sqrtQ (1 / 252)
  let path := gbmPathPrice expQ daily_mu_gbm daily_sigma_gbm Z last_price
  let pricesAt := fun (t : ℕ) => (List.range simulations).map (fun s => path s t)
  let terminal_prices := pricesAt horizon_days
  let cis := calculateConfidenceIntervals terminal_prices
    (ciPercentileLevels confidence_levels)
  let horizon_stats := ([21, 63, 126, horizon_days] : List ℕ).filterMap
    (fun h =>
      if horizon_days + 1 ≤ h then none
      else
        some (horizonToName h,
          { days := h
            mean_price := listMean (pricesAt h)
            median_price := medianQ (pricesAt h)
            mean_return := listMean (pricesAt h) / last_price - 1
            prob_profit :=
              ((pricesAt h).countP (fun p => last_price < p) : ℚ) /
                (simulations : ℚ) }))
  { current_price := last_price
    horizon_days := horizon_days
    simulations := simulations
    parameters := ⟨mu, sigma, drift_adj, vol_adj⟩
    terminal :=
      { mean := listMean terminal_prices
        median := medianQ terminal_prices
        std := sqrtQ (popVar terminal_prices)
        min := listMinD terminal_prices
        max := listMaxD terminal_prices
        percentiles := cis }
    return_metrics :=
      { mean_return := listMean terminal_prices / last_price - 1
        median_return := medianQ terminal_prices / last_price - 1
        prob_positive_return :=
          (terminal_prices.countP (fun p => last_price < p) : ℚ) /
            (simulations : ℚ) }
    horizon_stats := horizon_stats }

/-- Embedding of the per-ticker dispatch loop of `GBMModel.forecast`:
tickers without price history are skipped, tickers with fewer than 252 rows
get the `{error: ...}` entry, the rest get a simulated forecast.
`scenarios and ticker in scenarios` reduces to the lookup (an absent or
empty scenarios dict yields no adjustment either way). -/
def gbmForecast (expQ sqrtQ : ℚ → ℚ) (Z : ℕ → ℕ → ℚ) (tickers : List String)
    (horizon_days : ℕ) (price_history : List (String × PriceData))
    (simulations : ℕ) (scenarios : Option Scenarios)
    (confidence_levels : Option (List ℚ)) : List (String × TRes GBMForecast) :=
  let cls := confidence_levels.getD [9/10, 19/20, 99/100]
  tickers.filterMap (fun t =>
    match price_history.lookup t with
    | none => none
    | some hist =>
      if validateHistory hist 252 then
        some (t, .tok (gbmForecastSingle expQ sqrtQ Z horizon_days simulations
          (scenarios.bind (fun s => s.lookup t)) cls hist))
      else some (t, .terr ("Insufficient historical data")))

/-- Embedding of the per-ticker dispatch loop of `ARIMAModel.forecast`.
`_forecast_single` (stationarity test, parameter-cache consultation, the AIC
grid search and the statsmodels fit) is an external-library computation and
is taken as the oracle `forecastSingle` (receiving the ticker, its history
and the horizon); its exceptions surface as the per-ticker
entry prefixed `ARIMA forecast failed`.  `statsmodels_available` models
the module availability guard. -/
def arimaForecast {α : Type} (statsmodels_available : Bool)
    (forecastSingle : String → List ℚ → ℕ → Except String α)
    (tickers : List String) (horizon_days : ℕ)
    (price_history : List (String × PriceData)) : List (String × TRes α) :=
  if !statsmodels_available then
    tickers.map (fun t =>
      (t, .terr ("statsmodels not available. Install with: pip install statsmodels")))
  else
    tickers.filterMap (fun t =>
      match price_history.lookup t with
      | none => none
      | some hist =>
        if validateHistory hist 60 then
          match forecastSingle t hist horizon_days with
          | .ok f => some (t, .tok f)
          | .error e => some (t, .terr ("ARIMA forecast failed: " ++ e))
        else some (t, .terr ("Insufficient historical data for ARIMA")))

/-! ### PortfolioOptimizer (`app/services/portfolio_optimizer.py`)

The SLSQP solver (`scipy.optimize.minimize`) is an external numeric routine
and is modelled as an oracle from the optimisation problem it is handed
(objective kind, initial guess, data, bounds and constraint list — exactly
the information the source passes) to its result triple
`(success, x, fun)`. -/

/-- Which objective function is passed to `sco.minimize`. -/
inductive ObjectiveKind
  | negSharpe
  | volatility
deriving DecidableEq, Repr

/-- One entry of the `constraints=` list handed to the solver. -/
inductive ConsItem
  | sumToOne
  | sectorMax (idx : List ℕ) (limit : ℚ)
  | sectorMin (idx : List ℕ) (limit : ℚ)
  | targetReturn (t : ℚ)
deriving DecidableEq, Repr

/-- The data of one `sco.minimize` call. -/
structure OptProblem where
  objective : ObjectiveKind
  x0 : List ℚ
  mean_returns : List ℚ
  cov : List (List ℚ)
  bounds : List (ℚ × ℚ)
  constraints : List ConsItem
deriving DecidableEq, Repr

/-- The fields of the scipy result object the source reads: `success`, `x`
and `fun` (the objective value at the solution). -/
structure SolveResult where
  success : Bool
  x : List ℚ
  fval : ℚ
deriving DecidableEq, Repr

/-- The SLSQP oracle. -/
abbrev Solver := OptProblem → SolveResult

/-- Embedding of the `PortfolioConstraints` pydantic model with its field
defaults. -/
structure PortfolioConstraints where
  max_asset_weight : Option ℚ := none
  excluded_assets : List String := []
  sector_constraints : List (String × Option ℚ × Option ℚ) := []
  min_holdings : ℕ := 3
  max_holdings : ℕ := 20
  min_position_size : ℚ := 1/100
  max_volatility : Option ℚ := none
  max_drawdown : Option ℚ := none
deriving DecidableEq, Repr

/-- Embedding of `_build_optimization_constraints`.  `sectorMapOpt` models
`config_service.get_sector_mapping()`: `none` when the mapping is missing,
empty, or raises (all of which skip the sector block). -/
def buildOptimizationConstraints (sectorMapOpt : Option (String → Option String))
    (num_assets : ℕ) (tickers : List String)
    (constraints : Option PortfolioConstraints) :
    List ConsItem × List (ℚ × ℚ) :=
  let base : List ConsItem := [.sumToOne]
  let bounds0 := List.replicate num_assets ((0 : ℚ), (1 : ℚ))
  match constraints with
  | none => (base, bounds0)
  | some c =>
    let bounds1 :=
      match c.max_asset_weight with
      | some maw => List.replicate num_assets ((0 : ℚ), maw)
      | none => bounds0
    let bounds2 :=
      if c.excluded_assets.isEmpty then bounds1
      else
        bounds1.mapIdx (fun i b =>
          match tickers.get? i with
          | some t => if t ∈ c.excluded_assets then ((0 : ℚ), (0 : ℚ)) else b
          | none => b)
    let sector_items :=
      match sectorMapOpt with
      | none => []
      | some sector_map =>
        if c.sector_constraints.isEmpty then []
        else
          c.sector_constraints.foldl (fun acc sc =>
            let sector_indices := (List.range tickers.length).filter (fun i =>
              match tickers.get? i with
              | some t => sector_map t = some sc.1
              | none => false)
            if sector_indices.isEmpty then acc
            else
              acc ++
                (match sc.2.1 with
                 | some l => [ConsItem.sectorMax sector_indices l]
                 | none => []) ++
                (match sc.2.2 with
                 | some l => [ConsItem.sectorMin sector_indices l]
                 | none => [])) []
    (base ++ sector_items, bounds2)

/-- Embedding of `_filter_small_positions`: drop entries below the minimum
position size; if anything is left, renormalise the survivors to sum to 1,
otherwise return the weights unchanged. -/
def filterSmallPositions (weights : List (String × ℚ))
    (min_position_size : ℚ) : List (String × ℚ) :=
  let filtered := weights.filter (fun kv => min_position_size ≤ kv.2)
  if filtered.isEmpty then weights
  else
    let total := (filtered.map (fun kv => kv.2)).sum
    filtered.map (fun kv => (kv.1, kv.2 / total))

/-- The `optimal_portfolio` dict. -/
structure OptimalPortfolio where
  annual_return : ℚ
  annual_volatility : ℚ
  sharpe_ratio : ℚ
  weights : List (String × ℚ)
deriving DecidableEq, Repr

/-- An `EfficientFrontierPoint`. -/
structure EfficientFrontierPoint where
  annual_volatility : ℚ
  annual_return : ℚ
  sharpe_ratio : ℚ
  weights : List (String × ℚ)
deriving DecidableEq, Repr

/-- The hard-coded risk-free rate `0.04`. -/
def riskFreeRate : ℚ := 1/25

/-- Embedding of the unconstrained `_calculate_mean_variance`.  All result
vectors on this path are numpy arrays, so the vector algebra is total;
`sqrtQ` is the `np.sqrt` oracle. -/
def calculateMeanVariance (solver : Solver) (sqrtQ : ℚ → ℚ)
    (mean_returns : List (String × ℚ)) (cov : List (List ℚ)) (fast : Bool) :
    List EfficientFrontierPoint × OptimalPortfolio :=
  let num_assets := mean_returns.length
  let tickers := mean_returns.map (fun kv => kv.1)
  let rvals := mean_returns.map (fun kv => kv.2)
  let x0 := List.replicate num_assets ((1 : ℚ) / (num_assets : ℚ))
  let bounds := List.replicate num_assets ((0 : ℚ), (1 : ℚ))
  let result_max_sharpe := solver ⟨.negSharpe, x0, rvals, cov, bounds, [.sumToOne]⟩
  let max_sharpe_weights := tickers.zip result_max_sharpe.x
  let max_sharpe_ret := dotVV rvals result_max_sharpe.x
  let max_sharpe_vol :=
    sqrtQ (dotVV result_max_sharpe.x (dotMV cov result_max_sharpe.x))
  let optimal : OptimalPortfolio :=
    ⟨max_sharpe_ret, max_sharpe_vol,
      (max_sharpe_ret - riskFreeRate) / max_sharpe_vol, max_sharpe_weights⟩
  let result_min_vol := solver ⟨.volatility, x0, rvals, cov, bounds, [.sumToOne]⟩
  let min_ret := dotVV rvals result_min_vol.x
  let max_ret := listMaxD rvals
  let target_returns := linspace min_ret max_ret (if fast then 5 else 20)
  let efficient_frontier := target_returns.filterMap (fun target =>
    let result := solver
      ⟨.volatility, x0, rvals, cov, bounds, [.sumToOne, .targetReturn target]⟩
    if result.success then
      let weights := (tickers.zip result.x).filter (fun kv => 1/10000 < kv.2)
      some ⟨result.fval, target, (target - riskFreeRate) / result.fval, weights⟩
    else none)
  (efficient_frontier, optimal)

/-- The constrained max-Sharpe problem handed to the solver by
`_calculate_mean_variance_constrained`. -/
def constrainedMaxSharpeProblem (sectorMapOpt : Option (String → Option String))
    (mean_returns : List (String × ℚ)) (cov : List (List ℚ))
    (constraints : Option PortfolioConstraints) : OptProblem :=
  let num_assets := mean_returns.length
  let built := buildOptimizationConstraints sectorMapOpt num_assets
    (mean_returns.map (fun kv => kv.1)) constraints
  ⟨.negSharpe, List.replicate num_assets ((1 : ℚ) / (num_assets : ℚ)),
    mean_returns.map (fun kv => kv.2), cov, built.2, built.1⟩

/-- The exception text raised by evaluating `weights.T` on a plain Python
list inside `portfolio_volatility`. -/
def listAttrTError : String := "AttributeError: 'list' object has no attribute 'T'"

/-- The exception text raised by `np.sum(mean_returns * weights)` when the
weight list cannot be broadcast against the returns array. -/
def broadcastError : String :=
  "ValueError: operands could not be broadcast together"

/-- Embedding of `_calculate_mean_variance_constrained`.  If the constrained
max-Sharpe solve does not succeed, the function returns the unconstrained
`_calculate_mean_variance` result (with its default `fast=False`).  On the
success path it filters small positions, enforces `max_holdings` by keeping
the largest weights and renormalising — and then evaluates
`portfolio_return(list(max_sharpe_weights.values()), ...)` followed by
`portfolio_volatility(list(...), ...)`.  The latter executes `weights.T` on
a plain Python list and unconditionally raises `AttributeError` (after
`portfolio_return` has already raised `ValueError` whenever the filtered
list can no longer be broadcast against the `num_assets`-length returns
array), so the success path always ends in an exception and the code below
the volatility call (including the constrained frontier loop) is
unreachable. -/
def calculateMeanVarianceConstrained (solver : Solver) (sqrtQ : ℚ → ℚ)
    (sectorMapOpt : Option (String → Option String))
    (mean_returns : List (String × ℚ)) (cov : List (List ℚ))
    (constraints : Option PortfolioConstraints) (_fast : Bool) :
    Except String (List EfficientFrontierPoint × OptimalPortfolio) :=
  let num_assets := mean_returns.length
  let tickers := mean_returns.map (fun kv => kv.1)
  let result_max_sharpe :=
    solver (constrainedMaxSharpeProblem sectorMapOpt mean_returns cov constraints)
  if !result_max_sharpe.success then
    .ok (calculateMeanVariance solver sqrtQ mean_returns cov false)
  else
    let w0 := tickers.zip result_max_sharpe.x
    let w1 : List (String × ℚ) :=
      match constraints with
      | some c => filterSmallPositions w0 c.min_position_size
      | none => w0
    let w2 : List (String × ℚ) :=
      match constraints with
      | some c =>
        if w1.length < c.min_holdings then w1
        else if c.max_holdings < w1.length then
          let sorted_items : List (String × ℚ) :=
            List.insertionSort (fun a b : String × ℚ => b.2 ≤ a.2) w1
          let top := sorted_items.take c.max_holdings
          let total := (top.map (fun kv : String × ℚ => kv.2)).sum
          top.map (fun kv : String × ℚ => (kv.1, kv.2 / total))
        else w1
      | none => w1
    if w2.length = num_assets ∨ w2.length = 1 ∨ num_assets = 1 then
      .error listAttrTError
    else
      .error broadcastError

/-! ### Orchestration (`start_optimization` / `_run_optimization`)

The job store is the `optimization_jobs` collection.  Job documents are
modelled with the fields every persisted snapshot shares and that the claims
inspect (`job_id`, `status`, `error`, `initial_amount`, `currency`,
`created_at`); the additional result payload of a completed job is not
needed by any claim and is left to the abstract pipeline continuation. -/

/-- Persisted job snapshot. -/
structure JobDoc where
  job_id : String
  status : String
  error : Option String := none
  initial_amount : ℚ
  currency : String
  created_at : ℚ := 0
deriving DecidableEq, Repr

/-- The `optimization_jobs` collection. -/
abbrev JobStore := List (String × JobDoc)

/-- Embedding of `StorageService.save` on the job collection. -/
def saveJob (store : JobStore) (id : String) (doc : JobDoc) : JobStore :=
  (id, doc) :: store.filter (fun kv => kv.1 ≠ id)

/-- Embedding of `start_optimization` (the part relevant to job lifecycle):
persist the initial `queued` snapshot and hand the job id back to the caller;
the pipeline itself runs as a fire-and-forget task. -/
def startOptimization (store : JobStore) (job_id : String) (now amount : ℚ)
    (currency : String) : String × JobStore :=
  (job_id, saveJob store job_id
    { job_id := job_id, status := "queued", error := none,
      initial_amount := amount, currency := currency, created_at := now })

/-- Embedding of `_update_job_status`: fetch the current snapshot, set its
status and save it (no-op when the document is missing). -/
def updateJobStatus (store : JobStore) (job_id status : String) : JobStore :=
  match store.lookup job_id with
  | some cur => saveJob store job_id { cur with status := status }
  | none => store

/-- Everything `_run_optimization` does after the universe filter: data
fetch, forecasting, optimisation, analysis and result persistence.  It is
abstracted as a continuation that receives the filtered tickers and the
store, and returns the store it has written together with `some message`
when it raised.  The claims below hold for every such continuation. -/
abbrev PipelineRest := List String → JobStore → JobStore × Option String

/-- Text of the `ValueError` raised when the exclusion list empties the
universe. -/
def noTickersMsg : String := "No tickers available for optimization"

/-- Embedding of `_run_optimization`: the `try` body updates the status to
`fetching_data`, filters the configured universe by the exclusion list,
raises when nothing is left and otherwise runs the rest of the pipeline; the
`except` handler persists the terminal `failed` snapshot carrying
`str(exception)`. -/
def runOptimization (rest : PipelineRest) (etfUniverse excluded : List String)
    (store : JobStore) (job_id : String) (now amount : ℚ) (currency : String) :
    JobStore :=
  let s1 := updateJobStatus store job_id ("fetching_data")
  let tickers := etfUniverse.filter (fun t => t ∉ excluded)
  let step : JobStore × Option String :=
    if tickers.isEmpty then (s1, some noTickersMsg) else rest tickers s1
  match step.2 with
  | none => step.1
  | some e =>
    saveJob step.1 job_id
      { job_id := job_id, status := "failed", error := some e,
        initial_amount := amount, currency := currency, created_at := now }

/-- The VaR threshold used by both `calculate_var` (historical branch) and
`calculate_cvar`: the empirical `(1-confidence)`-quantile of the series. -/
def varThreshold (returns : List ℚ) (confidence : ℚ) : ℚ :=
  percentile returns ((1 - confidence) * 100)

/-- The tail `returns[returns <= var_threshold]` that `calculate_cvar`
averages. -/
def cvarTail (returns : List ℚ) (confidence : ℚ) : List ℚ :=
  returns.filter (fun r => r ≤ varThreshold returns confidence)

/-- Shorthand for the suite value `run_forecast_suite` computes on a cache
miss when price history is available (used to state the caching lemmas). -/
def computedSuite (registry : List (String × ModelFn))
    (histOracle : String → Option PriceData) (tickers : List String)
    (horizon : String) (models : List String) (simulations : ℕ)
    (scenarios : Option Scenarios) (model_params : Option MParams) : SuiteResult :=
  SuiteResult.sok
    ⟨createEnsemble
        (runModelsParallel registry models tickers (horizonToDays horizon)
          (fetchPriceHistory histOracle tickers) simulations scenarios model_params)
        tickers models,
      runModelsParallel registry models tickers (horizonToDays horizon)
        (fetchPriceHistory histOracle tickers) simulations scenarios model_params,
      horizonToDays horizon, horizon, tickers⟩

/-- The model list `run_forecast_suite` resolves when `models` is `None`:
the registry's keys (`_get_default_models`). -/
def resolvedModels (registry : List (String × ModelFn))
    (modelsOpt : Option (List String)) : List String :=
  modelsOpt.getD (registry.map (fun kv => kv.1))

/-! ## Theorems -/

theorem sortQ_perm (xs : List ℚ) : (sortQ xs).Perm xs :=
  List.perm_insertionSort _ xs

theorem sortQ_sorted (xs : List ℚ) : List.Sorted (· ≤ ·) (sortQ xs) :=
  List.sorted_insertionSort _ xs

theorem sortQ_length (xs : List ℚ) : (sortQ xs).length = xs.length :=
  (sortQ_perm xs).length_eq

theorem getD_mem_of_lt {l : List ℚ} {i : ℕ} (h : i < l.length) :
    l.getD i 0 ∈ l := by
  rw [List.getD_eq_getElem?_getD, List.getElem?_eq_getElem h]
  exact List.getElem_mem _

theorem sorted_head_le {a : ℚ} {t : List ℚ}
    (hs : List.Sorted (· ≤ ·) (a :: t)) : ∀ y ∈ a :: t, a ≤ y := by
  intro y hy
  rcases List.mem_cons.mp hy with rfl | hyt
  · exact le_refl _
  · exact List.rel_of_sorted_cons hs y hyt

theorem sorted_getD_mono {l : List ℚ} (hs : List.Sorted (· ≤ ·) l)
    {i j : ℕ} (hij : i ≤ j) (hj : j < l.length) :
    l.getD i 0 ≤ l.getD j 0 := by
  have hi : i < l.length := lt_of_le_of_lt hij hj
  rw [List.getD_eq_getElem?_getD, List.getElem?_eq_getElem hi,
    List.getD_eq_getElem?_getD, List.getElem?_eq_getElem hj]
  rcases lt_or_eq_of_le hij with hlt | rfl
  · exact List.pairwise_iff_getElem.mp hs i j hi hj hlt
  · exact le_refl _

/-- Every non-empty list has an element at or below its `q`-th percentile,
for `0 ≤ q ≤ 100` (in particular the sorted minimum qualifies). -/
theorem exists_mem_le_percentile (xs : List ℚ) (q : ℚ) (hne : xs ≠ [])
    (hq0 : 0 ≤ q) (hq1 : q ≤ 100) : ∃ x ∈ xs, x ≤ percentile xs q := by
  have hslen : 0 < (sortQ xs).length := by
    rw [sortQ_length]
    exact List.length_pos.mpr hne
  obtain ⟨a, t, hat⟩ := List.exists_cons_of_ne_nil (List.ne_nil_of_length_pos hslen)
  have hsorted := sortQ_sorted xs
  have hmem_a : a ∈ xs := (sortQ_perm xs).mem_iff.mp
    (by rw [hat]; exact List.mem_cons_self _ _)
  refine ⟨a, hmem_a, ?_⟩
  simp only [percentile]
  set n := (sortQ xs).length with hn
  set hq : ℚ := q / 100 * ((n : ℚ) - 1) with hhq
  set i : ℕ := (⌊hq⌋).toNat with hidef
  have hn1 : (1 : ℚ) ≤ (n : ℚ) := by exact_mod_cast hslen
  have hq_nonneg : 0 ≤ hq := by
    apply mul_nonneg (by positivity)
    linarith
  have h100 : q / 100 ≤ 1 := by
    apply div_le_one_of_le₀ hq1
    norm_num
  have hq_le : hq ≤ (n : ℚ) - 1 := by
    calc q / 100 * ((n : ℚ) - 1) ≤ 1 * ((n : ℚ) - 1) := by
          apply mul_le_mul_of_nonneg_right h100
          linarith
      _ = (n : ℚ) - 1 := one_mul _
  have hfloor_int : ⌊hq⌋ ≤ (n : ℤ) - 1 := by
    have h1 := Int.floor_le_floor hq_le
    rwa [show ((n : ℚ) - 1) = (((n : ℤ) - 1 : ℤ) : ℚ) by push_cast; ring,
      Int.floor_intCast] at h1
  have hi_lt : i < n := by omega
  have hj_lt : min (i + 1) (n - 1) < n := by omega
  have hij : i ≤ min (i + 1) (n - 1) := by omega
  have a_le_lo : a ≤ (sortQ xs).getD i 0 := by
    have hmem := getD_mem_of_lt (l := sortQ xs) (i := i) (by omega)
    rw [hat] at hmem hsorted ⊢
    exact sorted_head_le hsorted _ hmem
  have lo_le_hi : (sortQ xs).getD i 0 ≤ (sortQ xs).getD (min (i + 1) (n - 1)) 0 :=
    sorted_getD_mono hsorted hij (by omega)
  have frac_nonneg : 0 ≤ hq - (i : ℚ) := by
    have h1 : ((⌊hq⌋.toNat : ℤ) : ℚ) ≤ hq := by
      rw [Int.toNat_of_nonneg (Int.floor_nonneg.mpr hq_nonneg)]
      exact Int.floor_le hq
    have h2 : ((i : ℕ) : ℚ) ≤ hq := by exact_mod_cast h1
    linarith
  have hprod : 0 ≤ (hq - (i : ℚ)) *
      ((sortQ xs).getD (min (i + 1) (n - 1)) 0 - (sortQ xs).getD i 0) :=
    mul_nonneg frac_nonneg (by linarith)
  linarith

theorem listMean_le_of_forall_le (l : List ℚ) (c : ℚ) (hne : l ≠ [])
    (h : ∀ x ∈ l, x ≤ c) : listMean l ≤ c := by
  have hsum : l.sum ≤ (l.length : ℚ) * c := by
    induction l with
    | nil => simp
    | cons a t ih =>
      simp only [List.sum_cons, List.length_cons]
      push_cast
      have h1 := h a (List.mem_cons_self a t)
      have h2 : t.sum ≤ (t.length : ℚ) * c := by
        rcases t with _ | ⟨b, t2⟩
        · simp
        · exact ih (by simp) (fun x hx => h x (List.mem_cons_of_mem a hx))
      linarith
  have hlen : 0 < (l.length : ℚ) := by
    exact_mod_cast List.length_pos.mpr hne
  rw [listMean, div_le_iff₀ hlen]
  linarith [hsum]

theorem cvarTail_ne_nil (returns : List ℚ) (confidence : ℚ) (hne : returns ≠ [])
    (h0 : 0 ≤ confidence) (h1 : confidence ≤ 1) :
    cvarTail returns confidence ≠ [] := by
  obtain ⟨x, hx, hxle⟩ := exists_mem_le_percentile returns ((1 - confidence) * 100)
    hne (by nlinarith) (by nlinarith)
  have hmem : x ∈ cvarTail returns confidence := by
    rw [cvarTail, List.mem_filter]
    exact ⟨hx, by simpa [varThreshold] using hxle⟩
  exact List.ne_nil_of_mem hmem

/-- C3: for every non-empty return series and every confidence level in
`[0,1]`, `calculate_cvar` returns, as its `cvar` field, the mean of all
returns at or below the empirical `(1-confidence)`-quantile of the series,
and this value is less than or equal to the historical VaR (the same
empirical quantile) that `calculate_var` reports at the same confidence
level. -/
theorem cvar_is_tail_mean_and_le_var (ppf sqrtQ : ℚ → ℚ) (returns : List ℚ)
    (confidence : ℚ) (hne : returns ≠ []) (h0 : 0 ≤ confidence)
    (h1 : confidence ≤ 1) :
    calculate_var ppf sqrtQ returns confidence ("historical") =
      .vok { var_historical := some (varThreshold returns confidence),
             var_historical_pct := some (varThreshold returns confidence * 100) } ∧
    calculate_cvar returns confidence =
      .cok ⟨listMean (cvarTail returns confidence),
            listMean (cvarTail returns confidence) * 100,
            varThreshold returns confidence, confidence,
            (cvarTail returns confidence).length⟩ ∧
    listMean (cvarTail returns confidence) ≤ varThreshold returns confidence := by
  have hlen : ¬(returns.length = 0) := by
    simpa [List.length_eq_zero] using hne
  have htail := cvarTail_ne_nil returns confidence hne h0 h1
  have htlen : 0 < (cvarTail returns confidence).length := List.length_pos.mpr htail
  refine ⟨?_, ?_, ?_⟩
  · simp [calculate_var, hlen, varThreshold]
  · simp only [calculate_cvar, if_neg hlen]
    rw [if_pos (by simpa [cvarTail, varThreshold] using htlen)]
    rfl
  · apply listMean_le_of_forall_le _ _ htail
    intro x hx
    rw [cvarTail, List.mem_filter] at hx
    exact of_decide_eq_true hx.2

/-- Witness for C3 at `returns = [-1, 2]`, `confidence = 19/20`. -/
theorem cvar_is_tail_mean_and_le_var_witness :
    (([-1, 2] : List ℚ) ≠ [] ∧ (0 : ℚ) ≤ 19/20 ∧ (19/20 : ℚ) ≤ 1) ∧
    (calculate_var (fun q => q) (fun q => q) [-1, 2] (19/20) "historical" =
      .vok { var_historical := some (varThreshold [-1, 2] (19/20)),
             var_historical_pct := some (varThreshold [-1, 2] (19/20) * 100) } ∧
    calculate_cvar [-1, 2] (19/20) =
      .cok ⟨listMean (cvarTail [-1, 2] (19/20)),
            listMean (cvarTail [-1, 2] (19/20)) * 100,
            varThreshold [-1, 2] (19/20), 19/20,
            (cvarTail [-1, 2] (19/20)).length⟩ ∧
    listMean (cvarTail [-1, 2] (19/20)) ≤ varThreshold [-1, 2] (19/20)) :=
  ⟨⟨by decide, by norm_num, by norm_num⟩,
    cvar_is_tail_mean_and_le_var (fun q => q) (fun q => q) [-1, 2] (19/20)
      (by decide) (by norm_num) (by norm_num)⟩

theorem lookup_map_self {β : Type} (l : List String) (f : String → β)
    (k : String) (hk : k ∈ l) :
    (l.map (fun a => (a, f a))).lookup k = some (f k) := by
  induction l with
  | nil => cases hk
  | cons a t ih =>
    by_cases h : k = a
    · subst h
      simp [List.lookup]
    · rcases List.mem_cons.mp hk with h1 | h1
      · exact absurd h1 h
      · simp [List.lookup, beq_false_of_ne h, ih h1]

theorem lookup_map_const_getD (l : List String) (c : ℚ) (k : String) :
    ((l.map (fun a => (a, c))).lookup k).getD c = c := by
  induction l with
  | nil => rfl
  | cons a t ih =>
    by_cases h : k = a
    · subst h
      simp [List.lookup]
    · simp only [List.map_cons, List.lookup, beq_false_of_ne h]
      exact ih

theorem weightOf_eq (models : List String) (m : String) :
    weightOf models m = 1 / (models.length : ℚ) := by
  rw [weightOf, getEnsembleWeights]
  exact lookup_map_const_getD models _ m

theorem sum_map_constQ {α : Type} (l : List α) (c : ℚ) :
    (l.map (fun _ => c)).sum = (l.length : ℚ) * c := by
  induction l with
  | nil => simp
  | cons a t ih =>
    simp only [List.map_cons, List.sum_cons, List.length_cons, ih]
    push_cast
    ring

theorem filterMap_of_isSome {α β γ : Type} (l : List α) (f : α → Option β)
    (k : α → β → γ) (d : β) (h : ∀ a ∈ l, (f a).isSome) :
    l.filterMap (fun a => (f a).map (k a)) = l.map (fun a => k a ((f a).getD d)) := by
  induction l with
  | nil => rfl
  | cons a t ih =>
    have ha := h a (List.mem_cons_self a t)
    rcases hfa : f a with _ | v
    · rw [hfa] at ha
      cases ha
    · rw [List.filterMap_cons, hfa, List.map_cons, hfa,
        ih (fun x hx => h x (List.mem_cons_of_mem a hx))]
      rfl

/-- C1: for every ticker and every requested model list, the ensemble mean
return (and terminal mean price) is the equal-weight-weighted sum over the
models with a non-error result for that ticker, divided by the realized
total weight of exactly those surviving models; errored models contribute to
neither numerator nor denominator.  In particular, when exactly one of two
equally-weighted models errors for a ticker, the ensemble mean return equals
the surviving model's mean return exactly. -/
theorem ensemble_mean_is_survivor_weighted_average :
    (∀ (model_results : List (String × MOut)) (models : List String) (t : String),
      models ≠ [] →
      (∀ p ∈ survivingResults model_results models t, (p.2.return_metrics).isSome) →
      (∀ p ∈ survivingResults model_results models t, (p.2.terminal).isSome) →
      survivingResults model_results models t ≠ [] →
      (createEnsembleTicker model_results models t).mean_return =
        some (((survivingResults model_results models t).map (fun p =>
            ((p.2.return_metrics).getD none).getD 0 * (1 / (models.length : ℚ)))).sum /
          (((survivingResults model_results models t).length : ℚ) *
            (1 / (models.length : ℚ)))) ∧
      (createEnsembleTicker model_results models t).terminal_mean =
        some (((survivingResults model_results models t).map (fun p =>
            ((p.2.terminal).getD none).getD 0 * (1 / (models.length : ℚ)))).sum /
          (((survivingResults model_results models t).length : ℚ) *
            (1 / (models.length : ℚ))))) ∧
    (∀ (model_results : List (String × MOut)) (m1 m2 t : String) (r1 r2 : MRes)
      (ret : ℚ),
      lookupTickerResult model_results m1 t = some r1 → r1.hasError = true →
      lookupTickerResult model_results m2 t = some r2 → r2.hasError = false →
      r2.return_metrics = some (some ret) →
      (createEnsembleTicker model_results [m1, m2] t).mean_return = some ret) := by
  have key : ∀ (model_results : List (String × MOut)) (models : List String)
      (t : String) (g : MRes → Option (Option ℚ)),
      models ≠ [] →
      (∀ p ∈ survivingResults model_results models t, (g p.2).isSome) →
      survivingResults model_results models t ≠ [] →
      (let surv := survivingResults model_results models t
       let weighted := surv.filterMap (fun p =>
         (g p.2).map (fun mr => mr.getD 0 * weightOf models p.1))
       let total := (surv.map (fun p => weightOf models p.1)).sum
       (if weighted.isEmpty then none
        else some (if 0 < total then weighted.sum / total else 0)) =
         some ((surv.map (fun p =>
             ((g p.2).getD none).getD 0 * (1 / (models.length : ℚ)))).sum /
           ((surv.length : ℚ) * (1 / (models.length : ℚ))))) := by
    intro model_results models t g hm hall hsurv
    simp only
    set surv := survivingResults model_results models t with hsurvdef
    have hmap : surv.filterMap (fun p =>
        (g p.2).map (fun mr => mr.getD 0 * weightOf models p.1)) =
        surv.map (fun p => ((g p.2).getD none).getD 0 * weightOf models p.1) :=
      filterMap_of_isSome surv (fun p => g p.2)
        (fun p mr => mr.getD 0 * weightOf models p.1) none hall
    have hw : ∀ p ∈ surv, ((g p.2).getD none).getD 0 * weightOf models p.1 =
        ((g p.2).getD none).getD 0 * (1 / (models.length : ℚ)) := by
      intro p _
      rw [weightOf_eq]
    have htw : ∀ p ∈ surv, weightOf models p.1 = (1 : ℚ) / (models.length : ℚ) := by
      intro p _
      rw [weightOf_eq]
    have htotal : (surv.map (fun p => weightOf models p.1)).sum =
        (surv.length : ℚ) * (1 / (models.length : ℚ)) := by
      rw [List.map_congr_left htw, sum_map_constQ]
    have hmlen : 0 < (models.length : ℚ) := by
      exact_mod_cast List.length_pos.mpr hm
    have hslen : 0 < (surv.length : ℚ) := by
      exact_mod_cast List.length_pos.mpr hsurv
    have htpos : 0 < (surv.length : ℚ) * (1 / (models.length : ℚ)) := by positivity
    rw [hmap, List.map_congr_left hw]
    obtain ⟨p0, rest, hcons⟩ := List.exists_cons_of_ne_nil hsurv
    have hne2 : (surv.map (fun p =>
        ((g p.2).getD none).getD 0 * (1 / (models.length : ℚ)))).isEmpty = false := by
      rw [hcons]
      rfl
    rw [hne2]
    simp only [Bool.false_eq_true, if_false, htotal, if_pos htpos]
  constructor
  · intro model_results models t hm hr ht hsurv
    constructor
    · have h1 := key model_results models t (fun r => r.return_metrics) hm hr hsurv
      simpa only [createEnsembleTicker] using h1
    · have h1 := key model_results models t (fun r => r.terminal) hm ht hsurv
      simpa only [createEnsembleTicker] using h1
  · intro model_results m1 m2 t r1 r2 ret h1 he1 h2 he2 hrm
    have hsurv : survivingResults model_results [m1, m2] t = [(m2, r2)] := by
      simp [survivingResults, h1, h2, he1, he2]
    have hw2 : weightOf [m1, m2] m2 = 1 / 2 := by
      rw [weightOf_eq]
      norm_num
    simp only [createEnsembleTicker, hsurv, List.filterMap_cons, List.filterMap_nil,
      hrm, Option.map_some, Option.getD_some, List.map_cons, List.map_nil,
      List.sum_cons, List.sum_nil, hw2]
    norm_num

/-- Witness for C1: two models, `gbm` errors for the ticker, `arima`
survives with mean return 5; the ensemble mean return is exactly 5. -/
theorem ensemble_mean_is_survivor_weighted_average_witness :
    (lookupTickerResult
        [("gbm", .mok [("SPY", ⟨true, none, none⟩)]),
         ("arima", .mok [("SPY", ⟨false, some (some 5), some (some 7)⟩)])]
        "gbm" "SPY" = some ⟨true, none, none⟩ ∧
     lookupTickerResult
        [("gbm", .mok [("SPY", ⟨true, none, none⟩)]),
         ("arima", .mok [("SPY", ⟨false, some (some 5), some (some 7)⟩)])]
        "arima" "SPY" = some ⟨false, some (some 5), some (some 7)⟩) ∧
    (createEnsembleTicker
        [("gbm", .mok [("SPY", ⟨true, none, none⟩)]),
         ("arima", .mok [("SPY", ⟨false, some (some 5), some (some 7)⟩)])]
        ["gbm", "arima"] "SPY").mean_return = some 5 :=
  ⟨⟨by decide, by decide⟩,
    ensemble_mean_is_survivor_weighted_average.2
      [("gbm", .mok [("SPY", ⟨true, none, none⟩)]),
       ("arima", .mok [("SPY", ⟨false, some (some 5), some (some 7)⟩)])]
      "gbm" "arima" "SPY" ⟨true, none, none⟩ ⟨false, some (some 5), some (some 7)⟩
      5 (by decide) (by decide) (by decide) (by decide) (by decide)⟩

/-- C10: `_create_ensemble` yields an entry for every requested ticker, and
when no model has a non-error result for a ticker (missing price history or
all-model errors), that entry has an empty `constituent_models` list and
empty `terminal` and `return_metrics` dicts — it is neither absent nor an
error marker. -/
theorem ensemble_entry_for_every_requested_ticker :
    ∀ (model_results : List (String × MOut)) (models tickers : List String)
      (t : String), t ∈ tickers →
      (createEnsemble model_results tickers models).lookup t =
        some (createEnsembleTicker model_results models t) ∧
      ((∀ m ∈ models,
          Option.all (fun r => r.hasError) (lookupTickerResult model_results m t) = true) →
        createEnsembleTicker model_results models t =
          { model := "ensemble", constituent_models := [], terminal_mean := none,
            mean_return := none }) := by
  intro model_results models tickers t ht
  constructor
  · exact lookup_map_self tickers _ t ht
  · intro herr
    have hsurv : survivingResults model_results models t = [] := by
      rw [survivingResults, List.filterMap_eq_nil_iff]
      intro m hm
      rcases hl : lookupTickerResult model_results m t with _ | r
      · rfl
      · have := herr m hm
        rw [hl] at this
        simp only [Option.all_some] at this
        simp [this]
    simp [createEnsembleTicker, hsurv]

/-- Witness for C10 at a ticker for which one model has a per-ticker error
and the other model raised at model level. -/
theorem ensemble_entry_for_every_requested_ticker_witness :
    ("QQQ" ∈ ["SPY", "QQQ"] ∧
      (∀ m ∈ ["gbm", "arima"],
        Option.all (fun r => r.hasError)
          (lookupTickerResult
            [("gbm", .mok [("SPY", ⟨false, some (some 2), some (some 3)⟩),
                           ("QQQ", ⟨true, none, none⟩)]),
             ("arima", .merr ("model blew up"))] m ("QQQ")) = true)) ∧
    ((createEnsemble
        [("gbm", .mok [("SPY", ⟨false, some (some 2), some (some 3)⟩),
                       ("QQQ", ⟨true, none, none⟩)]),
         ("arima", .merr ("model blew up"))]
        ["SPY", "QQQ"] ["gbm", "arima"]).lookup ("QQQ") =
      some (createEnsembleTicker
        [("gbm", .mok [("SPY", ⟨false, some (some 2), some (some 3)⟩),
                       ("QQQ", ⟨true, none, none⟩)]),
         ("arima", .merr ("model blew up"))] ["gbm", "arima"] "QQQ") ∧
    ((∀ m ∈ ["gbm", "arima"],
        Option.all (fun r => r.hasError)
          (lookupTickerResult
            [("gbm", .mok [("SPY", ⟨false, some (some 2), some (some 3)⟩),
                           ("QQQ", ⟨true, none, none⟩)]),
             ("arima", .merr ("model blew up"))] m ("QQQ")) = true) →
      createEnsembleTicker
        [("gbm", .mok [("SPY", ⟨false, some (some 2), some (some 3)⟩),
                       ("QQQ", ⟨true, none, none⟩)]),
         ("arima", .merr ("model blew up"))] ["gbm", "arima"] "QQQ" =
        { model := "ensemble", constituent_models := [], terminal_mean := none,
          mean_return := none })) :=
  ⟨⟨by decide, by decide⟩,
    ensemble_entry_for_every_requested_ticker
      [("gbm", .mok [("SPY", ⟨false, some (some 2), some (some 3)⟩),
                     ("QQQ", ⟨true, none, none⟩)]),
       ("arima", .merr ("model blew up"))]
      ["gbm", "arima"] ["SPY", "QQQ"] "QQQ" (by decide)⟩

theorem lookup_map_kv {β γ : Type} (l : List (String × β)) (f : String → β → γ)
    (k : String) :
    (l.map (fun kv => (kv.1, f kv.1 kv.2))).lookup k = (l.lookup k).map (f k) := by
  induction l with
  | nil => rfl
  | cons a t ih =>
    by_cases h : k = a.1
    · simp [List.lookup, h]
    · simp [List.lookup, h, ih, beq_false_of_ne h]

/-- C7: `extract_expected_returns` maps each ticker of the ensemble to
`(1 + mean_return)^(365/horizon_days) - 1` when `horizon_days < 252` and to
the unchanged `mean_return` otherwise, where a missing `mean_return` is
replaced by `0.0` before the transformation.  The float power is the oracle
`powQ`. -/
theorem extract_expected_returns_spec :
    ∀ (powQ : ℚ → ℚ → ℚ) (r : SuiteOk) (t : String) (tf : TickerEnsemble),
      r.ensemble.lookup t = some tf →
      (extractExpectedReturns powQ (.sok r)).lookup t =
        some (if r.horizon_days < 252 then
            powQ (1 + (tf.mean_return).getD 0) (365 / (r.horizon_days : ℚ)) - 1
          else (tf.mean_return).getD 0) ∧
      (tf.mean_return = none →
        (extractExpectedReturns powQ (.sok r)).lookup t =
          some (if r.horizon_days < 252 then
              powQ (1 + 0) (365 / (r.horizon_days : ℚ)) - 1
            else 0)) := by
  intro powQ r t tf hlk
  have h1 : (extractExpectedReturns powQ (.sok r)).lookup t =
      some (if r.horizon_days < 252 then
          powQ (1 + (tf.mean_return).getD 0) (365 / (r.horizon_days : ℚ)) - 1
        else (tf.mean_return).getD 0) := by
    simp only [extractExpectedReturns]
    rw [lookup_map_kv r.ensemble
      (fun _ v => if r.horizon_days < 252 then
          powQ (1 + (v.mean_return).getD 0) (365 / (r.horizon_days : ℚ)) - 1
        else (v.mean_return).getD 0) t, hlk]
    rfl
  refine ⟨h1, fun hnone => ?_⟩
  rw [h1, hnone]
  rfl

/-- Witness for C7 at a 6-month (126-day) suite with one ticker of ensemble
mean return 3, and the compounding oracle instantiated with `fun a b => a + b`. -/
theorem extract_expected_returns_spec_witness :
    (SuiteOk.ensemble ⟨[("SPY", { mean_return := some 3 })], [], 126, "6mo", ["SPY"]⟩).lookup ("SPY") =
      some { mean_return := some 3 } ∧
    ((extractExpectedReturns (fun a b => a + b)
        (.sok ⟨[("SPY", { mean_return := some 3 })], [], 126, "6mo", ["SPY"]⟩)).lookup ("SPY") =
      some (if (SuiteOk.horizon_days ⟨[("SPY", { mean_return := some 3 })], [], 126, "6mo", ["SPY"]⟩) < 252 then
          (fun a b : ℚ => a + b) (1 + ((some (3:ℚ)).getD 0)) (365 / ((126:ℕ) : ℚ)) - 1
        else ((some (3:ℚ)).getD 0)) ∧
      ((some (3:ℚ) = none) →
        (extractExpectedReturns (fun a b => a + b)
          (.sok ⟨[("SPY", { mean_return := some 3 })], [], 126, "6mo", ["SPY"]⟩)).lookup ("SPY") =
        some (if (126:ℕ) < 252 then
            (fun a b : ℚ => a + b) (1 + 0) (365 / ((126:ℕ) : ℚ)) - 1
          else 0))) :=
  ⟨by decide,
    extract_expected_returns_spec (fun a b => a + b)
      ⟨[("SPY", { mean_return := some 3 })], [], 126, "6mo", ["SPY"]⟩
      "SPY" { mean_return := some 3 } (by decide)⟩

theorem lookup_saveCache_self {α : Type} (store : CacheStore α) (key : String)
    (e : CacheEntry α) : (saveCache store key e).lookup key = some e := by
  simp [saveCache, List.lookup]

/-- Behaviour of `run_forecast_suite` on a fresh cache hit: the cached suite
is returned verbatim and the store is untouched. -/
theorem runForecastSuite_cache_hit (registry : List (String × ModelFn))
    (histOracle : String → Option PriceData) (ttlHours now c : ℚ)
    (store : CacheStore SuiteResult) (tickers : List String) (horizon : String)
    (modelsOpt : Option (List String)) (simulations : ℕ)
    (scenarios : Option Scenarios) (model_params : Option MParams)
    (r : SuiteResult)
    (hkey : store.lookup
        (generateCacheKey tickers horizon (resolvedModels registry modelsOpt)
          simulations) = some ⟨c, some r⟩)
    (hfresh : now - c < ttlHours) :
    runForecastSuite registry histOracle ttlHours now store tickers horizon
      modelsOpt simulations scenarios model_params true = (r, store) := by
  rw [resolvedModels] at hkey
  simp only [runForecastSuite, getCachedForecast, hkey, if_pos hfresh, if_true]

/-- Behaviour of `run_forecast_suite` on a cache miss: the suite is computed
(and cached when price history is available). -/
theorem runForecastSuite_cache_miss (registry : List (String × ModelFn))
    (histOracle : String → Option PriceData) (ttlHours now : ℚ)
    (store : CacheStore SuiteResult) (tickers : List String) (horizon : String)
    (modelsOpt : Option (List String)) (simulations : ℕ)
    (scenarios : Option Scenarios) (model_params : Option MParams)
    (hmiss : store.lookup
        (generateCacheKey tickers horizon (resolvedModels registry modelsOpt)
          simulations) = none) :
    runForecastSuite registry histOracle ttlHours now store tickers horizon
      modelsOpt simulations scenarios model_params true =
      (if (fetchPriceHistory histOracle tickers).isEmpty then
        (.serr ("No price history available for tickers"), store)
      else
        (computedSuite registry histOracle tickers horizon
            (resolvedModels registry modelsOpt) simulations scenarios model_params,
          saveCache store
            (generateCacheKey tickers horizon (resolvedModels registry modelsOpt)
              simulations)
            ⟨now, some (computedSuite registry histOracle tickers horizon
              (resolvedModels registry modelsOpt) simulations scenarios
              model_params)⟩)) := by
  rw [resolvedModels] at hmiss ⊢
  simp only [runForecastSuite, getCachedForecast, hmiss, if_true, computedSuite]

/-- Two sequenced calls that share (tickers, horizon, models, simulations)
— but possibly not scenarios or model params — where the first starts from a
cold cache and the second happens within the TTL return the same suite (the
first call's). -/
theorem runForecastSuite_second_call (registry : List (String × ModelFn))
    (histOracle : String → Option PriceData) (ttlHours now₁ now₂ : ℚ)
    (store : CacheStore SuiteResult) (tickers : List String) (horizon : String)
    (modelsOpt : Option (List String)) (simulations : ℕ)
    (s₁ s₂ : Option Scenarios) (p₁ p₂ : Option MParams)
    (hmiss : store.lookup
        (generateCacheKey tickers horizon (resolvedModels registry modelsOpt)
          simulations) = none)
    (hfresh : now₂ - now₁ < ttlHours) :
    (runForecastSuite registry histOracle ttlHours now₂
        (runForecastSuite registry histOracle ttlHours now₁ store tickers horizon
          modelsOpt simulations s₁ p₁ true).2
        tickers horizon modelsOpt simulations s₂ p₂ true).1 =
      (runForecastSuite registry histOracle ttlHours now₁ store tickers horizon
        modelsOpt simulations s₁ p₁ true).1 := by
  rw [runForecastSuite_cache_miss registry histOracle ttlHours now₁ store tickers
    horizon modelsOpt simulations s₁ p₁ hmiss]
  by_cases hph : (fetchPriceHistory histOracle tickers).isEmpty
  · rw [if_pos hph]
    rw [runForecastSuite_cache_miss registry histOracle ttlHours now₂ store tickers
      horizon modelsOpt simulations s₂ p₂ hmiss, if_pos hph]
  · rw [if_neg hph]
    rw [runForecastSuite_cache_hit registry histOracle ttlHours now₂ now₁ _ tickers
      horizon modelsOpt simulations s₂ p₂ _ (lookup_saveCache_self _ _ _) hfresh]

/-- C6: with `use_cache` enabled, a forecast-cache entry under the key
derived from (sorted tickers, horizon, sorted models, simulations) that is
younger than the TTL short-circuits `run_forecast_suite`: the cached suite is
returned verbatim with no model run and no store write; consequently two
calls with identical (tickers, horizon, models, simulations) — the first on
a cold cache — within the TTL window return identical results. -/
theorem forecast_cache_hit_verbatim_and_idempotent :
    (∀ (registry : List (String × ModelFn)) (histOracle : String → Option PriceData)
      (ttlHours now c : ℚ) (store : CacheStore SuiteResult) (tickers : List String)
      (horizon : String) (modelsOpt : Option (List String)) (simulations : ℕ)
      (scenarios : Option Scenarios) (model_params : Option MParams)
      (r : SuiteResult),
      store.lookup (generateCacheKey tickers horizon
          (resolvedModels registry modelsOpt) simulations) = some ⟨c, some r⟩ →
      now - c < ttlHours →
      runForecastSuite registry histOracle ttlHours now store tickers horizon
        modelsOpt simulations scenarios model_params true = (r, store)) ∧
    (∀ (registry : List (String × ModelFn)) (histOracle : String → Option PriceData)
      (ttlHours now₁ now₂ : ℚ) (store : CacheStore SuiteResult)
      (tickers : List String) (horizon : String) (modelsOpt : Option (List String))
      (simulations : ℕ) (scenarios : Option Scenarios) (model_params : Option MParams),
      store.lookup (generateCacheKey tickers horizon
          (resolvedModels registry modelsOpt) simulations) = none →
      now₂ - now₁ < ttlHours →
      (runForecastSuite registry histOracle ttlHours now₂
          (runForecastSuite registry histOracle ttlHours now₁ store tickers horizon
            modelsOpt simulations scenarios model_params true).2
          tickers horizon modelsOpt simulations scenarios model_params true).1 =
        (runForecastSuite registry histOracle ttlHours now₁ store tickers horizon
          modelsOpt simulations scenarios model_params true).1) := by
  constructor
  · intro registry histOracle ttlHours now c store tickers horizon modelsOpt
      simulations scenarios model_params r hkey hfresh
    exact runForecastSuite_cache_hit registry histOracle ttlHours now c store
      tickers horizon modelsOpt simulations scenarios model_params r hkey hfresh
  · intro registry histOracle ttlHours now₁ now₂ store tickers horizon modelsOpt
      simulations scenarios model_params hmiss hfresh
    exact runForecastSuite_second_call registry histOracle ttlHours now₁ now₂
      store tickers horizon modelsOpt simulations scenarios scenarios
      model_params model_params hmiss hfresh

/-- Witness for C6: a concrete fresh cache entry is returned verbatim. -/
theorem forecast_cache_hit_verbatim_and_idempotent_witness :
    ([(generateCacheKey ["SPY"] "1y" (resolvedModels [] (some ["gbm"])) 100,
        (⟨0, some (.serr ("cached payload"))⟩ : CacheEntry SuiteResult))].lookup
      (generateCacheKey ["SPY"] "1y" (resolvedModels [] (some ["gbm"])) 100) =
        some ⟨0, some (.serr ("cached payload"))⟩ ∧
      (1 : ℚ) - 0 < 24) ∧
    runForecastSuite [] (fun _ => none) 24 1
        [(generateCacheKey ["SPY"] "1y" (resolvedModels [] (some ["gbm"])) 100,
          ⟨0, some (.serr ("cached payload"))⟩)]
        ["SPY"] "1y" (some ["gbm"]) 100 none none true =
      (.serr ("cached payload"),
        [(generateCacheKey ["SPY"] "1y" (resolvedModels [] (some ["gbm"])) 100,
          ⟨0, some (.serr ("cached payload"))⟩)]) :=
  ⟨⟨by simp [List.lookup], by norm_num⟩,
    forecast_cache_hit_verbatim_and_idempotent.1 [] (fun _ => none) 24 1 0
      [(generateCacheKey ["SPY"] "1y" (resolvedModels [] (some ["gbm"])) 100,
        ⟨0, some (.serr ("cached payload"))⟩)]
      ["SPY"] "1y" (some ["gbm"]) 100 none none (.serr ("cached payload"))
      (by simp [List.lookup]) (by norm_num)⟩

/-- C9: `_generate_cache_key` is computed only from (sorted tickers, horizon,
sorted model names, simulations) — `scenarios` and `model_params` are not
inputs of the key.  Hence with caching enabled, a second call within the TTL
that differs only in scenario adjustments or model parameters resolves to the
first call's cache entry and returns the suite computed under the first
call's scenarios. -/
theorem cache_key_ignores_scenarios_and_model_params :
    ∀ (registry : List (String × ModelFn)) (histOracle : String → Option PriceData)
      (ttlHours now₁ now₂ : ℚ) (store : CacheStore SuiteResult)
      (tickers : List String) (horizon : String) (modelsOpt : Option (List String))
      (simulations : ℕ) (s₁ s₂ : Option Scenarios) (p₁ p₂ : Option MParams),
      store.lookup (generateCacheKey tickers horizon
          (resolvedModels registry modelsOpt) simulations) = none →
      now₂ - now₁ < ttlHours →
      (runForecastSuite registry histOracle ttlHours now₂
          (runForecastSuite registry histOracle ttlHours now₁ store tickers horizon
            modelsOpt simulations s₁ p₁ true).2
          tickers horizon modelsOpt simulations s₂ p₂ true).1 =
        (runForecastSuite registry histOracle ttlHours now₁ store tickers horizon
          modelsOpt simulations s₁ p₁ true).1 := by
  intro registry histOracle ttlHours now₁ now₂ store tickers horizon modelsOpt
    simulations s₁ s₂ p₁ p₂ hmiss hfresh
  exact runForecastSuite_second_call registry histOracle ttlHours now₁ now₂ store
    tickers horizon modelsOpt simulations s₁ s₂ p₁ p₂ hmiss hfresh

/-- Witness for C9: second call with different scenarios and params, cold
initial cache, 1 hour apart. -/
theorem cache_key_ignores_scenarios_and_model_params_witness :
    (([] : CacheStore SuiteResult).lookup
        (generateCacheKey ["SPY"] "6mo" (resolvedModels [] (some ["gbm"])) 50) =
        none ∧ (1 : ℚ) - 0 < 24) ∧
    (runForecastSuite [] (fun _ => none) 24 1
        (runForecastSuite [] (fun _ => none) 24 0 [] ["SPY"] "6mo" (some ["gbm"])
          50 (some [("SPY", 1, 2)]) none true).2
        ["SPY"] "6mo" (some ["gbm"]) 50 none (some [("gbm", [("p", 3)])]) true).1 =
      (runForecastSuite [] (fun _ => none) 24 0 [] ["SPY"] "6mo" (some ["gbm"]) 50
        (some [("SPY", 1, 2)]) none true).1 :=
  ⟨⟨rfl, by norm_num⟩,
    cache_key_ignores_scenarios_and_model_params [] (fun _ => none) 24 0 1 []
      ["SPY"] "6mo" (some ["gbm"]) 50 (some [("SPY", 1, 2)]) none none
      (some [("gbm", [("p", 3)])]) rfl (by norm_num)⟩

theorem validateHistory_false {hist : List ℚ} {m : ℕ} (h : hist.length < m) :
    validateHistory hist m = false := by
  rw [validateHistory]
  split
  · rfl
  · simpa using Nat.not_le.mpr h

theorem validateHistory_true {hist : List ℚ} {m : ℕ} (h0 : 0 < m)
    (h : m ≤ hist.length) : validateHistory hist m = true := by
  rw [validateHistory]
  have hne : hist.isEmpty = false := by
    rcases hist with _ | ⟨a, t⟩
    · simp at h
      omega
    · rfl
  rw [hne]
  simpa using h

theorem gbmForecast_lookup (expQ sqrtQ : ℚ → ℚ) (Z : ℕ → ℕ → ℚ)
    (tickers : List String) (horizon_days : ℕ)
    (price_history : List (String × PriceData)) (simulations : ℕ)
    (scenarios : Option Scenarios) (confidence_levels : Option (List ℚ))
    (t : String) (hist : PriceData) (ht : t ∈ tickers)
    (hph : price_history.lookup t = some hist) :
    (gbmForecast expQ sqrtQ Z tickers horizon_days price_history simulations
        scenarios confidence_levels).lookup t =
      some (if validateHistory hist 252 then
          .tok (gbmForecastSingle expQ sqrtQ Z horizon_days simulations
            (scenarios.bind (fun s => s.lookup t))
            (confidence_levels.getD [9/10, 19/20, 99/100]) hist)
        else .terr ("Insufficient historical data")) := by
  simp only [gbmForecast]
  induction tickers with
  | nil => cases ht
  | cons a rest ih =>
    rw [List.filterMap_cons]
    by_cases hta : t = a
    · subst hta
      rw [hph]
      dsimp only
      by_cases hv : validateHistory hist 252
      · rw [if_pos hv, if_pos hv]
        simp [List.lookup]
      · rw [if_neg hv, if_neg hv]
        simp [List.lookup]
    · have ht2 : t ∈ rest := by
        rcases List.mem_cons.mp ht with h1 | h1
        · exact absurd h1 hta
        · exact h1
      rcases hpa : price_history.lookup a with _ | ha
      · dsimp only
        exact ih ht2
      · dsimp only
        by_cases hva : validateHistory ha 252
        · rw [if_pos hva]
          simp only [List.lookup, beq_false_of_ne hta]
          exact ih ht2
        · rw [if_neg hva]
          simp only [List.lookup, beq_false_of_ne hta]
          exact ih ht2

theorem arimaForecast_lookup {α : Type}
    (single : String → List ℚ → ℕ → Except String α) (tickers : List String)
    (horizon_days : ℕ) (price_history : List (String × PriceData)) (t : String)
    (hist : PriceData) (ht : t ∈ tickers)
    (hph : price_history.lookup t = some hist) :
    (arimaForecast true single tickers horizon_days price_history).lookup t =
      some (if validateHistory hist 60 then
          (match single t hist horizon_days with
           | .ok f => .tok f
           | .error e => .terr ("ARIMA forecast failed: " ++ e))
        else .terr ("Insufficient historical data for ARIMA")) := by
  simp only [arimaForecast, Bool.not_true, Bool.false_eq_true, if_false]
  induction tickers with
  | nil => cases ht
  | cons a rest ih =>
    rw [List.filterMap_cons]
    by_cases hta : t = a
    · subst hta
      rw [hph]
      dsimp only
      by_cases hv : validateHistory hist 60
      · rw [if_pos hv, if_pos hv]
        rcases hfit : single t hist horizon_days with f | e
        · simp [List.lookup]
        · simp [List.lookup]
      · rw [if_neg hv, if_neg hv]
        simp [List.lookup]
    · have ht2 : t ∈ rest := by
        rcases List.mem_cons.mp ht with h1 | h1
        · exact absurd h1 hta
        · exact h1
      rcases hpa : price_history.lookup a with _ | ha
      · dsimp only
        exact ih ht2
      · dsimp only
        by_cases hva : validateHistory ha 60
        · rw [if_pos hva]
          rcases hfit : single a ha horizon_days with f | e
          · dsimp only
            simp only [List.lookup, beq_false_of_ne hta]
            exact ih ht2
          · dsimp only
            simp only [List.lookup, beq_false_of_ne hta]
            exact ih ht2
        · rw [if_neg hva]
          dsimp only
          simp only [List.lookup, beq_false_of_ne hta]
          exact ih ht2

/-- C5: a requested ticker whose price history has fewer rows than the
model's minimum (252 for GBM, 60 for ARIMA) is mapped to an `{error: ...}`
entry by that model, while any other requested ticker with sufficient
history still receives its normal forecast (for ARIMA, the fitted forecast
when the fit oracle succeeds, and a per-ticker error — not a batch failure —
when it raises).  Both dispatchers are total functions of their inputs: one
ticker's insufficiency cannot abort the batch. -/
theorem insufficient_history_isolated_per_ticker :
    (∀ (expQ sqrtQ : ℚ → ℚ) (Z : ℕ → ℕ → ℚ) (tickers : List String)
      (horizon_days : ℕ) (price_history : List (String × PriceData))
      (simulations : ℕ) (scenarios : Option Scenarios)
      (confidence_levels : Option (List ℚ)) (t : String) (hist : PriceData),
      t ∈ tickers → price_history.lookup t = some hist →
      (hist.length < 252 →
        (gbmForecast expQ sqrtQ Z tickers horizon_days price_history simulations
          scenarios confidence_levels).lookup t =
          some (.terr ("Insufficient historical data"))) ∧
      (252 ≤ hist.length →
        (gbmForecast expQ sqrtQ Z tickers horizon_days price_history simulations
          scenarios confidence_levels).lookup t =
          some (.tok (gbmForecastSingle expQ sqrtQ Z horizon_days simulations
            (scenarios.bind (fun s => s.lookup t))
            (confidence_levels.getD [9/10, 19/20, 99/100]) hist)))) ∧
    (∀ {α : Type} (single : String → List ℚ → ℕ → Except String α)
      (tickers : List String) (horizon_days : ℕ)
      (price_history : List (String × PriceData)) (t : String) (hist : PriceData),
      t ∈ tickers → price_history.lookup t = some hist →
      (hist.length < 60 →
        (arimaForecast true single tickers horizon_days price_history).lookup t =
          some (.terr ("Insufficient historical data for ARIMA"))) ∧
      (∀ f, 60 ≤ hist.length → single t hist horizon_days = .ok f →
        (arimaForecast true single tickers horizon_days price_history).lookup t =
          some (.tok f)) ∧
      (∀ e, 60 ≤ hist.length → single t hist horizon_days = .error e →
        (arimaForecast true single tickers horizon_days price_history).lookup t =
          some (.terr ("ARIMA forecast failed: " ++ e)))) := by
  constructor
  · intro expQ sqrtQ Z tickers horizon_days price_history simulations scenarios
      confidence_levels t hist ht hph
    have base := gbmForecast_lookup expQ sqrtQ Z tickers horizon_days
      price_history simulations scenarios confidence_levels t hist ht hph
    constructor
    · intro hlt
      rw [base, validateHistory_false hlt]
      rfl
    · intro hge
      rw [base, validateHistory_true (by norm_num) hge]
      rfl
  · intro α single tickers horizon_days price_history t hist ht hph
    have base := arimaForecast_lookup single tickers horizon_days price_history
      t hist ht hph
    refine ⟨?_, ?_, ?_⟩
    · intro hlt
      rw [base, validateHistory_false hlt]
      rfl
    · intro f hge hfit
      rw [base, validateHistory_true (by norm_num) hge, hfit]
      rfl
    · intro e hge hfit
      rw [base, validateHistory_true (by norm_num) hge, hfit]
      rfl

set_option maxRecDepth 8000 in
/-- Witness for C5: a 10-row ticker errors for both models while a 252-row
ticker still receives its forecast from each model. -/
theorem insufficient_history_isolated_per_ticker_witness :
    (("SHORT" : String) ∈ (["SHORT", "LONG"] : List String) ∧
     ("LONG" : String) ∈ (["SHORT", "LONG"] : List String) ∧
     ([("SHORT", List.replicate 10 (1 : ℚ)), ("LONG", List.replicate 252 (1 : ℚ))].lookup
        ("SHORT") = some (List.replicate 10 (1 : ℚ))) ∧
     ([("SHORT", List.replicate 10 (1 : ℚ)), ("LONG", List.replicate 252 (1 : ℚ))].lookup
        ("LONG") = some (List.replicate 252 (1 : ℚ))) ∧
     (List.replicate 10 (1 : ℚ)).length < 252 ∧
     252 ≤ (List.replicate 252 (1 : ℚ)).length ∧
     (List.replicate 10 (1 : ℚ)).length < 60 ∧
     60 ≤ (List.replicate 252 (1 : ℚ)).length) ∧
    ((gbmForecast (fun q => q) (fun q => q) (fun _ _ => 0) ["SHORT", "LONG"] 5
        [("SHORT", List.replicate 10 (1 : ℚ)), ("LONG", List.replicate 252 (1 : ℚ))]
        3 none none).lookup ("SHORT") =
        some (.terr ("Insufficient historical data")) ∧
     (gbmForecast (fun q => q) (fun q => q) (fun _ _ => 0) ["SHORT", "LONG"] 5
        [("SHORT", List.replicate 10 (1 : ℚ)), ("LONG", List.replicate 252 (1 : ℚ))]
        3 none none).lookup ("LONG") =
        some (.tok (gbmForecastSingle (fun q => q) (fun q => q) (fun _ _ => 0) 5 3
          ((none : Option Scenarios).bind (fun s => s.lookup ("LONG")))
          ((none : Option (List ℚ)).getD [9/10, 19/20, 99/100])
          (List.replicate 252 (1 : ℚ)))) ∧
     (arimaForecast true (fun _ _ _ => Except.ok (7 : ℚ)) ["SHORT", "LONG"] 5
        [("SHORT", List.replicate 10 (1 : ℚ)), ("LONG", List.replicate 252 (1 : ℚ))]).lookup
        ("SHORT") = some (.terr ("Insufficient historical data for ARIMA")) ∧
     (arimaForecast true (fun _ _ _ => Except.ok (7 : ℚ)) ["SHORT", "LONG"] 5
        [("SHORT", List.replicate 10 (1 : ℚ)), ("LONG", List.replicate 252 (1 : ℚ))]).lookup
        ("LONG") = some (.tok 7)) := by
  refine ⟨⟨by decide, by decide, by decide, by decide, by decide, by decide,
    by decide, by decide⟩, ?_, ?_, ?_, ?_⟩
  · exact (insufficient_history_isolated_per_ticker.1 (fun q => q) (fun q => q)
      (fun _ _ => 0) ["SHORT", "LONG"] 5
      [("SHORT", List.replicate 10 (1 : ℚ)), ("LONG", List.replicate 252 (1 : ℚ))]
      3 none none ("SHORT") (List.replicate 10 (1 : ℚ)) (by decide) (by decide)).1
      (by decide)
  · exact (insufficient_history_isolated_per_ticker.1 (fun q => q) (fun q => q)
      (fun _ _ => 0) ["SHORT", "LONG"] 5
      [("SHORT", List.replicate 10 (1 : ℚ)), ("LONG", List.replicate 252 (1 : ℚ))]
      3 none none ("LONG") (List.replicate 252 (1 : ℚ)) (by decide) (by decide)).2
      (by decide)
  · exact (insufficient_history_isolated_per_ticker.2
      (fun _ _ _ => Except.ok (7 : ℚ)) ["SHORT", "LONG"] 5
      [("SHORT", List.replicate 10 (1 : ℚ)), ("LONG", List.replicate 252 (1 : ℚ))]
      ("SHORT") (List.replicate 10 (1 : ℚ)) (by decide) (by decide)).1 (by decide)
  · exact (insufficient_history_isolated_per_ticker.2
      (fun _ _ _ => Except.ok (7 : ℚ)) ["SHORT", "LONG"] 5
      [("SHORT", List.replicate 10 (1 : ℚ)), ("LONG", List.replicate 252 (1 : ℚ))]
      ("LONG") (List.replicate 252 (1 : ℚ)) (by decide) (by decide)).2.1 7
      (by decide) rfl

/-- C4: when the constrained max-Sharpe SLSQP solve reports non-convergence,
`_calculate_mean_variance_constrained` returns the unconstrained
`_calculate_mean_variance` result on the same expected returns and
covariance matrix (with the unconstrained default `fast=False`) instead of
raising; this holds for every solver oracle, input and constraint set. -/
theorem constrained_nonconvergence_falls_back_to_unconstrained :
    ∀ (solver : Solver) (sqrtQ : ℚ → ℚ)
      (sectorMapOpt : Option (String → Option String))
      (mean_returns : List (String × ℚ)) (cov : List (List ℚ))
      (constraints : Option PortfolioConstraints) (fast : Bool),
      (solver (constrainedMaxSharpeProblem sectorMapOpt mean_returns cov
        constraints)).success = false →
      calculateMeanVarianceConstrained solver sqrtQ sectorMapOpt mean_returns cov
          constraints fast =
        .ok (calculateMeanVariance solver sqrtQ mean_returns cov false) := by
  intro solver sqrtQ sectorMapOpt mean_returns cov constraints fast hfail
  simp only [calculateMeanVarianceConstrained, hfail, Bool.not_false, if_true]

/-- Witness for C4 with a solver oracle that always reports failure. -/
theorem constrained_nonconvergence_falls_back_to_unconstrained_witness :
    ((fun _ : OptProblem => SolveResult.mk false [] 0)
        (constrainedMaxSharpeProblem none [("SPY", 1/10), ("AGG", 1/20)]
          [[1/25, 0], [0, 1/25]] (some {}))).success = false ∧
    calculateMeanVarianceConstrained (fun _ => SolveResult.mk false [] 0)
        (fun q => q) none [("SPY", 1/10), ("AGG", 1/20)] [[1/25, 0], [0, 1/25]]
        (some {}) true =
      .ok (calculateMeanVariance (fun _ => SolveResult.mk false [] 0) (fun q => q)
        [("SPY", 1/10), ("AGG", 1/20)] [[1/25, 0], [0, 1/25]] false) :=
  ⟨rfl,
    constrained_nonconvergence_falls_back_to_unconstrained
      (fun _ => SolveResult.mk false [] 0) (fun q => q) none
      [("SPY", 1/10), ("AGG", 1/20)] [[1/25, 0], [0, 1/25]] (some {}) true rfl⟩

/-- C2 (code bug): whenever the constrained max-Sharpe solve converges, the
success path of `_calculate_mean_variance_constrained` evaluates `weights.T`
on a plain Python `list` inside `portfolio_volatility` and raises
`AttributeError`, so no `OptimalPortfolio` (with or without the claimed
weight-map invariants) is ever returned from the constrained path; the job
fails via the pipeline exception handler.  Evaluated here at a concrete
two-asset problem with default constraints and the feasible converged solver
output `x = [1/2, 1/2]`. -/
theorem constrained_success_path_always_raises :
    calculateMeanVarianceConstrained
        (fun _ => SolveResult.mk true [1/2, 1/2] 0) (fun q => q) none
        [("SPY", 1/10), ("AGG", 1/20)] [[1/25, 0], [0, 1/25]]
        (some {}) false =
      .error listAttrTError := by
  norm_num [calculateMeanVarianceConstrained, filterSmallPositions,
    List.filter_cons, List.filter_nil, decide_eq_true_eq]

theorem lookup_saveJob_self (store : JobStore) (id : String) (doc : JobDoc) :
    (saveJob store id doc).lookup id = some doc := by
  simp [saveJob, List.lookup]

/-- C8: excluding every ticker of the universe still hands the caller a job
id (no exception), and the persisted job document reaches the terminal
status `failed` with the non-empty error string raised by the universe
filter; moreover the pipeline exception handler records status `failed`
and the raised message for any unrecoverable error of the rest of the
pipeline. -/
theorem all_tickers_excluded_fails_job_with_error :
    (∀ (store : JobStore) (job_id currency : String) (now amount : ℚ)
      (rest : PipelineRest) (etfUniverse excluded : List String),
      (∀ t ∈ etfUniverse, t ∈ excluded) →
      (startOptimization store job_id now amount currency).1 = job_id ∧
      (runOptimization rest etfUniverse excluded
          (startOptimization store job_id now amount currency).2 job_id now
          amount currency).lookup job_id =
        some { job_id := job_id, status := "failed", error := some noTickersMsg,
               initial_amount := amount, currency := currency,
               created_at := now } ∧
      noTickersMsg ≠ "") ∧
    (∀ (store : JobStore) (job_id currency : String) (now amount : ℚ)
      (rest : PipelineRest) (etfUniverse excluded : List String)
      (s2 : JobStore) (e : String),
      rest (etfUniverse.filter (fun t => t ∉ excluded))
          (updateJobStatus store job_id ("fetching_data")) = (s2, some e) →
      (etfUniverse.filter (fun t => t ∉ excluded)).isEmpty = false →
      (runOptimization rest etfUniverse excluded store job_id now amount
          currency).lookup job_id =
        some { job_id := job_id, status := "failed", error := some e,
               initial_amount := amount, currency := currency,
               created_at := now }) := by
  constructor
  · intro store job_id currency now amount rest etfUniverse excluded hexcl
    refine ⟨rfl, ?_, by decide⟩
    have hfil : etfUniverse.filter (fun t => t ∉ excluded) = [] := by
      rw [List.filter_eq_nil_iff]
      intro a ha
      simp [hexcl a ha]
    simp only [runOptimization, hfil, List.isEmpty_nil, if_true]
    exact lookup_saveJob_self _ _ _
  · intro store job_id currency now amount rest etfUniverse excluded s2 e hrest hne
    simp only [runOptimization, hne, Bool.false_eq_true, if_false, hrest]
    exact lookup_saveJob_self _ _ _

/-- Witness for C8: a two-ticker universe entirely excluded; the job document
ends `failed` with the `No tickers available for optimization` error. -/
theorem all_tickers_excluded_fails_job_with_error_witness :
    (∀ t ∈ (["SPY", "AGG"] : List String), t ∈ (["SPY", "AGG"] : List String)) ∧
    ((startOptimization [] ("job-1") 0 10000 ("USD")).1 = "job-1" ∧
    (runOptimization (fun _ s => (s, none)) ["SPY", "AGG"] ["SPY", "AGG"]
        (startOptimization [] ("job-1") 0 10000 ("USD")).2 ("job-1") 0 10000
        ("USD")).lookup ("job-1") =
      some { job_id := "job-1", status := "failed", error := some noTickersMsg,
             initial_amount := 10000, currency := "USD", created_at := 0 } ∧
    noTickersMsg ≠ "") :=
  ⟨by decide,
    all_tickers_excluded_fails_job_with_error.1 [] ("job-1") ("USD") 0 10000
      (fun _ s => (s, none)) ["SPY", "AGG"] ["SPY", "AGG"] (by decide)⟩

end Advisor
